import Mathlib

/-!
Verification of the `@apihive/adapter-simple-cache` adapter (file `src/index.ts`,
class `SimpleRequestCacheAdapter` plus its `IDBStore` backend).

The embedding is shallow: every fallible JavaScript operation becomes an
`Except`, the JavaScript values that the cache configuration code inspects
become the inductive `JSVal`, and the asynchronous effects an interceptor
performs (store reads/writes, logging) are made explicit in its result so that
ordering and isolation properties can be stated.  Since the host runtime is
single-threaded with suspension only at `await`, the promise machinery is
modelled by passing each awaited outcome in as an `Except` argument.
-/

set_option autoImplicit false

namespace SimpleCache

/-- JavaScript primitive values as far as the adapter's configuration code
distinguishes them: `typeof`, strict equality, and truthiness. -/
inductive JSVal where
  | undefined
  | null
  | num (n : Int)
  | boolV (b : Bool)
  | strV (s : String)
deriving Repr, DecidableEq

/-- JavaScript truthiness for the values of `JSVal` (NaN is not modelled;
no claim depends on it). -/
def truthy : JSVal → Bool
  | .undefined => false
  | .null => false
  | .num n => n != 0
  | .boolV b => b
  | .strV s => s != ""

/-- JavaScript `a || b`. -/
def jsOr (a b : JSVal) : JSVal := if truthy a then a else b

/-- The value found under a `cache` key: either a primitive or an object with
the two fields the source reads (`ttlSeconds`, `hashBody`); a missing field is
`.undefined`, exactly as property access yields in JavaScript. -/
inductive CacheConfigVal where
  | prim (v : JSVal)
  | obj (ttlField hashBodyField : JSVal)
deriving Repr, DecidableEq

/-- `typeof cacheConfig === 'number'`. -/
def typeofIsNumber : CacheConfigVal → Bool
  | .prim (.num _) => true
  | _ => false

/-- Translation of `configDoesntConform`: the config is defined and is neither
a number nor a non-null object with a numeric `ttlSeconds` or boolean
`hashBody` field.  (`typeof null === 'object'` but the source's
`cacheConfig !== null` guard excludes it.) -/
def configDoesntConform (c : CacheConfigVal) : Bool :=
  (match c with | .prim .undefined => false | _ => true) &&
  !(typeofIsNumber c ||
    (match c with
     | .obj t hb =>
         (match t with | .num _ => true | _ => false) ||
         (match hb with | .boolV _ => true | _ => false)
     | _ => false))

/-- The normalized result of `resolveCacheMetaConfig`.  The source annotates
`ttlSeconds : number`, but the computed value `meta.cache.ttlSeconds || 0` can
be any truthy field value, so the field stays a `JSVal` here. -/
structure ResolvedCacheMeta where
  ttlSeconds : JSVal
  hashBody : Bool
deriving Repr, DecidableEq

/-- Translation of `SimpleRequestCacheAdapter.resolveCacheMetaConfig`.
The argument is the value of `meta?.cache`; an absent `meta` or absent `cache`
key is `.prim .undefined`.  A nonconforming config throws
(`Cache config must be a number or an object with ttlSeconds and/or hashBody
properties`), modelled as `.error ()`. -/
def resolveCacheMetaConfig (cache : CacheConfigVal) : Except Unit ResolvedCacheMeta :=
  if cache = .prim .undefined then .ok ⟨.num 0, false⟩
  else if configDoesntConform cache then .error ()
  else
    let ttl : JSVal :=
      match cache with
      | .prim (.num n) => .num n
      | .obj t _ => jsOr t (.num 0)
      | _ => .num 0
    let hb : Bool :=
      match cache with
      | .obj _ (.boolV b) => b
      | _ => false
    .ok ⟨ttl, hb⟩

/-- The endpoint definition's `meta` object, as far as `isExplicitCache`
inspects it: whether it has an own `cache` property
(`Object.prototype.hasOwnProperty.call(endpointMeta, 'cache')`) and the
property's value (which `isExplicitCache` never reads). -/
structure EndpointMeta where
  cachePresent : Bool
  cacheValue : CacheConfigVal
deriving Repr, DecidableEq

/-- The `config.meta.api` object: the API-wide `apiMeta.cache` value and the
endpoint definition's meta (`none` models an absent `endpoint`/`meta`, which
the source replaces by `{}` via `|| {}`). -/
structure ApiInfo where
  apiMetaCache : CacheConfigVal
  endpointMeta : Option EndpointMeta
deriving Repr, DecidableEq

/-- The slice of the host's `RequestConfig` the adapter reads: the merged
request-level `meta.cache`, the `meta.api` object, and the mime-type pattern
lists used for response classification. -/
structure RequestConfig where
  metaCache : CacheConfigVal
  api : Option ApiInfo
  jsonMimeTypes : List String
  textMimeTypes : List String

/-- `config.meta?.api?.apiMeta`'s `cache` value; optional chaining yields
`undefined` when the api object is absent. -/
def apiMetaCacheOf (config : RequestConfig) : CacheConfigVal :=
  match config.api with
  | some a => a.apiMetaCache
  | none => .prim .undefined

/-- `endpointHasCache` from the source: own-property check on
`(config.meta?.api?.endpoint?.meta) || {}`. -/
def endpointHasCacheKey (config : RequestConfig) : Bool :=
  match config.api with
  | some a =>
    match a.endpointMeta with
    | some em => em.cachePresent
    | none => false
  | none => false

/-- Translation of `SimpleRequestCacheAdapter.isExplicitCache`.  Evaluation
order matches the source: the API-level meta is resolved first, then the
request's own meta, and either resolution can throw the configuration error
before any `return true` is reached. -/
def isExplicitCache (config : RequestConfig) : Except Unit Bool :=
  match resolveCacheMetaConfig (apiMetaCacheOf config) with
  | .error e => .error e
  | .ok a =>
    let epHas := endpointHasCacheKey config
    match resolveCacheMetaConfig config.metaCache with
    | .error e => .error e
    | .ok c =>
      if epHas then .ok true
      else if a.ttlSeconds ≠ JSVal.undefined ∧ c.ttlSeconds ≠ a.ttlSeconds then .ok true
      else .ok false

/-- A stored cache record (`CacheEntry` in the source). -/
structure CacheEntry where
  hash : String
  body : JSVal
  createdAt : Int
  expiresAt : Int
deriving Repr, DecidableEq

/-- A store operation initiated by the adapter, recorded in the order the code
issues it. -/
inductive StoreOp where
  | get (hash : String)
  | set (entry : CacheEntry)
  | clear
  | cleanup (now : Int)
deriving Repr, DecidableEq

/-- Deterministic oracle for the outcomes of the store's fallible operations:
`get` may reject or resolve to an entry or `null`, `set` may reject. -/
structure StoreBehavior where
  getResult : String → Except String (Option CacheEntry)
  setResult : CacheEntry → Except String Unit

/-- The adapter's mutable fields the interceptors read: `readyPromise`
(`none` models the field being left `undefined`, `some r` a promise that
settled with outcome `r`) and the configured `filter` predicate. -/
structure AdapterState where
  readyPromise : Option (Except String Unit)
  filter : Option (RequestConfig → Bool)

/-- How an interceptor invocation can terminate abnormally: the synchronous
configuration error thrown by `resolveCacheMetaConfig`, or a rejected promise
it awaited without a surrounding catch. -/
inductive RunError where
  | invalidCacheConfig
  | storeFailure (msg : String)
deriving Repr, DecidableEq

/-- Result of one interceptor invocation: its completion (normal return value
or propagated error), the store operations it issued, and the messages it
logged through the factory's logger. -/
structure InterceptResult (α : Type) where
  result : Except RunError α
  storeOps : List StoreOp
  logs : List String
deriving Repr

/-- The skip condition `!explicit && this.filter && !this.filter(config)`,
second and third conjunct. -/
def filterRejects (filter : Option (RequestConfig → Bool)) (config : RequestConfig) : Bool :=
  match filter with
  | some f => !(f config)
  | none => false

/-- Translation of the request interceptor returned by
`getRequestInterceptors`.  `getHash` models `controls.getHash({includeBody})`,
which throws (`.error ()`) when the request-hash feature is unavailable;
`controls.finaliseURL()` has no cache-visible effect and is not recorded.
The leading `match` is `await this.readyPromise`: a rejected promise
propagates, an undefined or fulfilled one falls through. -/
def requestInterceptor (st : AdapterState) (beh : StoreBehavior)
    (config : RequestConfig) (getHash : Bool → Except Unit String) (now : Int) :
    InterceptResult (Option JSVal) :=
  match st.readyPromise with
  | some (.error e) => ⟨.error (.storeFailure e), [], []⟩
  | _ =>
    match resolveCacheMetaConfig config.metaCache with
    | .error _ => ⟨.error .invalidCacheConfig, [], []⟩
    | .ok rc =>
      if !truthy rc.ttlSeconds then ⟨.ok none, [], []⟩
      else
        match isExplicitCache config with
        | .error _ => ⟨.error .invalidCacheConfig, [], []⟩
        | .ok explicit =>
          if !explicit && filterRejects st.filter config then ⟨.ok none, [], []⟩
          else
            match getHash rc.hashBody with
            | .error _ => ⟨.ok none, [], []⟩
            | .ok hash =>
              match beh.getResult hash with
              | .error _ => ⟨.ok none, [.get hash], ["Failed to read cache entry"]⟩
              | .ok (some entry) =>
                if now < entry.expiresAt then ⟨.ok (some entry.body), [.get hash], []⟩
                else ⟨.ok none, [.get hash], []⟩
              | .ok none => ⟨.ok none, [.get hash], []⟩

/-- The response object as far as the adapter touches it: `ok`, the
`content-type` header, the outcomes of `json()` and `text()` on a body copy,
and whether this object's own body stream has been consumed. -/
structure JSResponse where
  ok : Bool
  contentTypeHeader : Option String
  jsonBody : Except Unit JSVal
  textBody : Except Unit String
  bodyUsed : Bool

/-- `response.clone()`: an independent copy whose body is unconsumed. -/
def cloneResponse (r : JSResponse) : JSResponse := { r with bodyUsed := false }

/-- `response.json()`: yields the parse outcome and consumes the body of the
object it is called on. -/
def readJson (r : JSResponse) : Except Unit JSVal × JSResponse :=
  (r.jsonBody, { r with bodyUsed := true })

/-- `response.text()`: yields the text outcome and consumes the body of the
object it is called on. -/
def readText (r : JSResponse) : Except Unit String × JSResponse :=
  (r.textBody, { r with bodyUsed := true })

/-- `response.headers.get('content-type')?.split(/;\s?/)[0] || ''`. -/
def contentTypeOf (r : JSResponse) : String :=
  (((r.contentTypeHeader.getD "").splitOn ";").headD "")

/-- `isJSONResponse`: some pattern in `config.jsonMimeTypes` matches the
content type.  The source tests each pattern with `new RegExp(type, 'i')`;
the matcher `rt` is passed in rather than re-implementing regular
expressions, and the theorems hold for every matcher. -/
def isJSONResponse (rt : String → String → Bool) (config : RequestConfig) (ct : String) : Bool :=
  config.jsonMimeTypes.any (fun t => rt t ct)

/-- `isTextResponse`: some pattern in `config.textMimeTypes` matches. -/
def isTextResponse (rt : String → String → Bool) (config : RequestConfig) (ct : String) : Bool :=
  config.textMimeTypes.any (fun t => rt t ct)

/-- Translation of `readResponseSafely`.  Each read happens on
`response.clone()`; a parse failure is swallowed and falls through; a
non-JSON, non-text content type yields `null` (`JSVal.null` — the same value
a JSON body `"null"` parses to, exactly as in the source).  The second
component is the response object handed back to the pipeline. -/
def readResponseSafely (rt : String → String → Bool) (config : RequestConfig)
    (r : JSResponse) : JSVal × JSResponse :=
  let ct := contentTypeOf r
  let fromJSON : Option JSVal :=
    if isJSONResponse rt config ct then
      match (readJson (cloneResponse r)).1 with
      | .ok v => some v
      | .error _ => none
    else none
  match fromJSON with
  | some v => (v, r)
  | none =>
    if isTextResponse rt config ct then
      match (readText (cloneResponse r)).1 with
      | .ok s => (.strV s, r)
      | .error _ => (.null, r)
    else (.null, r)

/-- `now + ttlSeconds * 1000`.  On every path the claims cover the resolved
TTL is a JS number; a non-number TTL (reachable only through a conforming
object whose `ttlSeconds` field is a truthy non-number) would give NaN in the
source, whose comparisons are all false, so the entry could never be served —
mapping it to `now` preserves exactly that unservability. -/
def expiresAtOf (ttl : JSVal) (now : Int) : Int :=
  match ttl with
  | .num n => now + n * 1000
  | _ => now

/-- Translation of the response interceptor returned by
`getResponseInterceptors`.  The second component of the result is the
response object as downstream consumers see it after the interceptor ran. -/
def responseInterceptor (st : AdapterState) (beh : StoreBehavior)
    (rt : String → String → Bool) (config : RequestConfig)
    (response : Option JSResponse) (getHash : Bool → Except Unit String) (now : Int) :
    InterceptResult Unit × Option JSResponse :=
  match st.readyPromise with
  | some (.error e) => (⟨.error (.storeFailure e), [], []⟩, response)
  | _ =>
    match resolveCacheMetaConfig config.metaCache with
    | .error _ => (⟨.error .invalidCacheConfig, [], []⟩, response)
    | .ok rc =>
      if !truthy rc.ttlSeconds then (⟨.ok (), [], []⟩, response)
      else
        match isExplicitCache config with
        | .error _ => (⟨.error .invalidCacheConfig, [], []⟩, response)
        | .ok explicit =>
          if !explicit && filterRejects st.filter config then (⟨.ok (), [], []⟩, response)
          else
            match response with
            | none => (⟨.ok (), [], []⟩, none)
            | some r =>
              if !r.ok then (⟨.ok (), [], []⟩, some r)
              else
                match readResponseSafely rt config r with
                | (body, r2) =>
                  if body = JSVal.null then (⟨.ok (), [], []⟩, some r2)
                  else
                    match getHash rc.hashBody with
                    | .error _ => (⟨.ok (), [], []⟩, some r2)
                    | .ok hash =>
                      let entry : CacheEntry := ⟨hash, body, now, expiresAtOf rc.ttlSeconds now⟩
                      match beh.setResult entry with
                      | .ok _ => (⟨.ok (), [.set entry], []⟩, some r2)
                      | .error _ =>
                        (⟨.ok (), [.set entry], ["Failed to write cache entry"]⟩, some r2)

/-- Translation of `onAttach`: with `clear` configured the namespace clear is
fired without being assigned to `readyPromise` (the source discards the
promise), otherwise `readyPromise` is set to the `cleanupExpired(Date.now())`
task.  Returns the adapter state the interceptors subsequently see and the
store operation that was initiated; `clearResult` — the eventual outcome of a
fired clear — never reaches the state. -/
def onAttach (clearOnAttach : Bool) (filter : Option (RequestConfig → Bool))
    (_clearResult sweepResult : Except String Unit) (now : Int) :
    AdapterState × List StoreOp :=
  if clearOnAttach then ({ readyPromise := none, filter := filter }, [StoreOp.clear])
  else ({ readyPromise := some sweepResult, filter := filter }, [StoreOp.cleanup now])

/-- The `IDBStore` fields relevant to initialization: `dbPromise`, holding
the identity of the in-flight or settled open promise once one exists. -/
structure IDBStoreState where
  dbPromise : Option Nat
deriving Repr, DecidableEq

/-- The `IDBStore` constructor: no database open is started. -/
def mkIDBStore : IDBStoreState := ⟨none⟩

/-- One call of `IDBStore.open` in the supported environment: returns the
cached promise if one exists, otherwise creates a fresh promise (identity
`fresh`), caches it, and reports that a new open was started.  The check and
the assignment are separated by no `await` in the source, so in the
single-threaded runtime concurrent callers serialize into successive calls
of this step. -/
def openOk (s : IDBStoreState) (fresh : Nat) : Nat × IDBStoreState × Bool :=
  match s.dbPromise with
  | some p => (p, s, false)
  | none => (fresh, ⟨some fresh⟩, true)

/-- `IDBStore.open` including the `if (!this.supported) throw` guard. -/
def openCall (supported : Bool) (s : IDBStoreState) (fresh : Nat) :
    Except Unit (Nat × IDBStoreState × Bool) :=
  if supported then .ok (openOk s fresh) else .error ()

/-- A sequence of store operations each calling `open` with the given fresh
promise identities, threading the store state; yields per call the promise
the operation awaits and whether it started a new open. -/
def runOpens (freshes : List Nat) (s : IDBStoreState) : List (Nat × Bool) :=
  match freshes with
  | [] => []
  | f :: rest =>
    match openOk s f with
    | (p, s2, created) => (p, created) :: runOpens rest s2

/-- Construction-time options (`SimpleRequestCacheAdapterOptions`); a missing
property is `none`. -/
structure AdapterOptions where
  cacheName : Option String
  filter : Option (RequestConfig → Bool)
  clear : Option Bool

/-- The default parameter value `{ cacheName: 'apihive-request-cache' }` used
when the constructor argument is omitted. -/
def defaultAdapterOptions : AdapterOptions :=
  ⟨some "apihive-request-cache", none, none⟩

/-- The constructed adapter's fields. -/
structure AdapterInit where
  cacheName : String
  filter : Option (RequestConfig → Bool)
  clearOnAttach : Bool

/-- Translation of the `SimpleRequestCacheAdapter` constructor: the default
options object applies only when the argument is omitted; destructuring
defaults `clear` to `false`; `if (!cacheName) throw` rejects a missing or
empty `cacheName`. -/
def mkSimpleRequestCacheAdapter (options : Option AdapterOptions) :
    Except Unit AdapterInit :=
  let opts := options.getD defaultAdapterOptions
  let clearOnAttach := opts.clear.getD false
  match opts.cacheName with
  | none => .error ()
  | some s => if s = "" then .error () else .ok ⟨s, opts.filter, clearOnAttach⟩

/-- An adapter state after a successful sweep-free attach: `readyPromise`
undefined, no filter configured. -/
def stReady : AdapterState := ⟨none, none⟩

/-- A store whose operations all succeed with an empty namespace. -/
def behOk : StoreBehavior := ⟨fun _ => .ok none, fun _ => .ok ()⟩

/-- A store whose `get` rejects. -/
def behGetFails : StoreBehavior := ⟨fun _ => .error "tx abort", fun _ => .ok ()⟩

/-- A store whose `set` rejects. -/
def behSetFails : StoreBehavior := ⟨fun _ => .ok none, fun _ => .error "tx abort"⟩

/-- A fingerprinting control that always produces the hash "h". -/
def ghOk : Bool → Except Unit String := fun _ => .ok "h"

/-- A request with request-level `meta.cache = 60` and no API context. -/
def cfgPlain : RequestConfig := ⟨.prim (.num 60), none, [], []⟩

/-- Same request with the usual `json` mime pattern configured. -/
def cfgJson : RequestConfig := ⟨.prim (.num 60), none, ["json"], []⟩

/-- An ok JSON response whose body parses to the number 42. -/
def respJson42 : JSResponse := ⟨true, some "application/json", .ok (.num 42), .ok "42", false⟩

/-- A mime matcher accepting everything. -/
def rtAll : String → String → Bool := fun _ _ => true

/-- A mime matcher that accepts exactly the pattern "json", whatever the
content type (the matcher is a free parameter of every theorem; this one keeps
the witness computations independent of string splitting). -/
def rtJson : String → String → Bool := fun p _ => p == "json"

/-- A successfully resolved configuration never has an `undefined` TTL: the
source's `typeof apiLevelTTL !== 'undefined'` test can therefore never fail
once `resolveCacheMetaConfig` has replaced the raw meta. -/
theorem resolve_ttl_ne_undefined {c : CacheConfigVal} {r : ResolvedCacheMeta}
    (h : resolveCacheMetaConfig c = .ok r) : r.ttlSeconds ≠ JSVal.undefined := by
  unfold resolveCacheMetaConfig at h
  split at h
  · obtain rfl : (⟨.num 0, false⟩ : ResolvedCacheMeta) = r := by simpa using h
    simp
  · split at h
    · exact absurd h (by simp)
    · simp only [Except.ok.injEq] at h
      subst h
      cases c with
      | prim v => cases v <;> simp
      | obj t hb => cases t <;> simp [jsOr, truthy] <;> split <;> simp

/-- A request whose API declares no cache, whose endpoint meta has no `cache`
key, and whose own `meta.cache` is 60. -/
def cfgC1 : RequestConfig :=
  ⟨.prim (.num 60), some ⟨.prim .undefined, some ⟨false, .prim .undefined⟩⟩, [], []⟩

/-- C1 is falsified by `cfgC1`: its endpoint meta has no `cache` key and its
API declares no cache setting at all (apiMeta cache is undefined, resolving to
TTL 0), yet `isExplicitCache` returns true, because the source compares the
*resolved* API TTL — which is always a defined number — with the current TTL
60. -/
theorem C1_counterexample :
    endpointHasCacheKey cfgC1 = false ∧
    apiMetaCacheOf cfgC1 = .prim .undefined ∧
    isExplicitCache cfgC1 = .ok true :=
  ⟨rfl, rfl, rfl⟩

/-- C1 (amended): for a request whose endpoint meta carries no `cache` key and
whose API-level and request-level cache meta resolve without error,
`isExplicitCache` returns true exactly when the request's resolved TTL differs
from the resolved API-level TTL — where an API that declares no cache setting
resolves to TTL 0, so such a request is explicit whenever its own resolved TTL
is nonzero. -/
theorem C1_theorem (config : RequestConfig) (a c : ResolvedCacheMeta)
    (ha : resolveCacheMetaConfig (apiMetaCacheOf config) = .ok a)
    (hc : resolveCacheMetaConfig config.metaCache = .ok c)
    (hep : endpointHasCacheKey config = false) :
    isExplicitCache config = .ok (decide (c.ttlSeconds ≠ a.ttlSeconds)) := by
  have hau := resolve_ttl_ne_undefined ha
  unfold isExplicitCache
  rw [ha, hc]
  simp only [hep, Bool.false_eq_true, if_false]
  by_cases h : c.ttlSeconds = a.ttlSeconds <;> simp [h, hau]

/-- A request inheriting the API-level TTL 60 unchanged, endpoint absent. -/
def cfgC1w : RequestConfig := ⟨.prim (.num 60), some ⟨.prim (.num 60), none⟩, [], []⟩

/-- Witness for C1's amended theorem: a request that inherits the API default
unchanged is not explicit. -/
theorem C1_witness : isExplicitCache cfgC1w = .ok false := by
  have h := C1_theorem cfgC1w ⟨.num 60, false⟩ ⟨.num 60, false⟩ rfl rfl rfl
  simpa using h

/-- A request whose endpoint declares `cache: {}` and whose merged meta
inherited that empty object unchanged. -/
def cfgC8 : RequestConfig :=
  ⟨.obj .undefined .undefined,
   some ⟨.prim .undefined, some ⟨true, .obj .undefined .undefined⟩⟩, [], []⟩

/-- C8 is falsified by `cfgC8`: the endpoint meta carries a `cache` key (the
empty object), but because the request's merged `meta.cache` is that same
malformed empty object, `isExplicitCache` throws the configuration error on
the way to its `return true` instead of returning true. -/
theorem C8_counterexample :
    endpointHasCacheKey cfgC8 = true ∧
    isExplicitCache cfgC8 = .error () ∧
    isExplicitCache cfgC8 ≠ .ok true := by
  refine ⟨rfl, rfl, ?_⟩
  intro h
  rw [show isExplicitCache cfgC8 = .error () from rfl] at h
  exact Except.noConfusion h

/-- C8 (amended): provided the API-level meta and the request's merged meta
both resolve without a configuration error, presence of a `cache` key on the
endpoint meta alone makes `isExplicitCache` return true, regardless of that
key's value (including `cache: 0` and an empty object); when the merged meta
is itself malformed — e.g. the endpoint's empty object inherited unchanged —
the call raises the configuration error instead. -/
theorem C8_theorem (config : RequestConfig) (a c : ResolvedCacheMeta)
    (hep : endpointHasCacheKey config = true)
    (ha : resolveCacheMetaConfig (apiMetaCacheOf config) = .ok a)
    (hc : resolveCacheMetaConfig config.metaCache = .ok c) :
    isExplicitCache config = .ok true := by
  unfold isExplicitCache
  rw [ha, hc]
  simp [hep]

/-- Endpoint `cache: {}` with a valid request-level override. -/
def cfgC8w : RequestConfig :=
  ⟨.prim (.num 5), some ⟨.prim .undefined, some ⟨true, .obj .undefined .undefined⟩⟩, [], []⟩

/-- Endpoint `cache: 0` inherited unchanged. -/
def cfgC8w0 : RequestConfig :=
  ⟨.prim (.num 0), some ⟨.prim .undefined, some ⟨true, .prim (.num 0)⟩⟩, [], []⟩

/-- Witness for C8's amended theorem: an endpoint-level empty object with a
valid request override, and an endpoint-level `cache: 0`, are both explicit. -/
theorem C8_witness :
    isExplicitCache cfgC8w = .ok true ∧ isExplicitCache cfgC8w0 = .ok true :=
  ⟨C8_theorem cfgC8w ⟨.num 0, false⟩ ⟨.num 5, false⟩ rfl rfl rfl,
   C8_theorem cfgC8w0 ⟨.num 0, false⟩ ⟨.num 0, false⟩ rfl rfl rfl⟩

/-- An adapter whose attach-time sweep rejected: `readyPromise` holds the
rejection, exactly what `onAttach` leaves behind when `cleanupExpired` fails
(for instance when IndexedDB is unavailable). -/
def stFailedSweep : AdapterState := ⟨some (.error "IndexedDB not available"), none⟩

/-- C2: the propagation policy fails for the attach-time sweep.  When the
`cleanupExpired` task stored in `readyPromise` has rejected, both interceptors
re-raise that rejection at `await this.readyPromise` — outside every
try/catch — so a cache-related storage error aborts the request flow.  In
contrast, and as the claim demands, a failing `get` degrades to a cache miss
and a failing `set` leaves the response interceptor completing normally. -/
theorem C2_theorem :
    (requestInterceptor stFailedSweep behOk cfgPlain ghOk 0).result
      = .error (.storeFailure "IndexedDB not available") ∧
    (responseInterceptor stFailedSweep behOk rtAll cfgPlain none ghOk 0).1.result
      = .error (.storeFailure "IndexedDB not available") ∧
    (requestInterceptor stReady behGetFails cfgPlain ghOk 0).result = .ok none ∧
    (responseInterceptor stReady behSetFails rtAll cfgJson (some respJson42) ghOk 0).1.result
      = .ok () :=
  ⟨rfl, rfl, rfl, rfl⟩

/-- C3 is falsified in the `clear: true` configuration: `onAttach` fires the
namespace clear but never assigns it to `readyPromise`, so the interceptors'
`await this.readyPromise` awaits nothing — there is no attach task for them to
wait on. -/
theorem C3_counterexample :
    ((onAttach true none (.error "boom") (.ok ()) 0).1.readyPromise).isSome = false ∧
    (onAttach true none (.error "boom") (.ok ()) 0).2 = [StoreOp.clear] :=
  ⟨rfl, rfl⟩

/-- C3 (amended): only in the sweep configuration is the attach-time task
recorded in `readyPromise` and hence awaited: `onAttach` with `clear: false`
publishes the `cleanupExpired` task, and every interceptor invocation consults
that task before issuing any store operation — if it failed, no store access
happens at all.  In the `clear: true` configuration the clear is fired without
being awaited. -/
theorem C3_theorem (f : Option (RequestConfig → Bool)) (cr s : Except String Unit) (now : Int) :
    (onAttach false f cr s now).1.readyPromise = some s ∧
    (∀ (st : AdapterState) (beh : StoreBehavior) (config : RequestConfig)
       (gh : Bool → Except Unit String) (n : Int) (e : String),
       st.readyPromise = some (.error e) →
       (requestInterceptor st beh config gh n).storeOps = [] ∧
       (∀ (rt : String → String → Bool) (resp : Option JSResponse),
          (responseInterceptor st beh rt config resp gh n).1.storeOps = [])) := by
  constructor
  · simp [onAttach]
  · intro st beh config gh n e he
    constructor
    · simp [requestInterceptor, he]
    · intro rt resp
      simp [responseInterceptor, he]

/-- Witness for C3's amended theorem, at the sweep configuration with a failed
sweep: the task is published and the request interceptor touches no store. -/
theorem C3_witness :
    (onAttach false none (.ok ()) (.error "x") 0).1.readyPromise = some (.error "x") ∧
    (requestInterceptor ⟨some (.error "x"), none⟩ behOk cfgPlain ghOk 0).storeOps = [] := by
  refine ⟨(C3_theorem none (.ok ()) (.error "x") 0).1, ?_⟩
  exact ((C3_theorem none (.ok ()) (.error "x") 0).2
    ⟨some (.error "x"), none⟩ behOk cfgPlain ghOk 0 "x" rfl).1

/-- A request whose `meta.cache` is the negative number -5. -/
def cfgNeg : RequestConfig := ⟨.prim (.num (-5)), none, ["json"], []⟩

/-- C4 is falsified by a negative TTL: `meta.cache = -5` resolves to the
nonzero `ttlSeconds = -5`, which passes the `if (!ttlSeconds)` gate, and the
response interceptor then writes an entry with
`expiresAt = createdAt + (-5)*1000 < createdAt`. -/
theorem C4_counterexample :
    resolveCacheMetaConfig cfgNeg.metaCache = .ok ⟨.num (-5), false⟩ ∧
    (responseInterceptor stReady behOk rtAll cfgNeg (some respJson42) ghOk 1000).1.storeOps
      = [.set ⟨"h", .num 42, 1000, -4000⟩] ∧
    (-4000 : Int) < 1000 := by
  refine ⟨rfl, ?_, by norm_num⟩
  rfl

/-- C4 (amended): every `CacheEntry` the response interceptor writes has
`createdAt = now` and `expiresAt = createdAt + ttlSeconds * 1000`, with
`ttlSeconds` the numeric TTL resolved from the configuration at write time
(so a later configuration change cannot alter a stored entry's lifetime), and
`expiresAt > createdAt` holds whenever that resolved TTL is positive — not
merely nonzero, since a negative TTL is written as an already-expired
entry. -/
theorem C4_theorem (st : AdapterState) (beh : StoreBehavior) (rt : String → String → Bool)
    (config : RequestConfig) (r r2 : JSResponse) (gh : Bool → Except Unit String)
    (now n : Int) (hb : Bool) (v : JSVal) (ex : Bool) (hash : String)
    (hready : st.readyPromise = none)
    (hres : resolveCacheMetaConfig config.metaCache = .ok ⟨.num n, hb⟩)
    (hn : n ≠ 0)
    (hex : isExplicitCache config = .ok ex)
    (hgate : (!ex && filterRejects st.filter config) = false)
    (hok : r.ok = true)
    (hbody : readResponseSafely rt config r = (v, r2))
    (hv : v ≠ JSVal.null)
    (hhash : gh hb = .ok hash) :
    (responseInterceptor st beh rt config (some r) gh now).1.storeOps
      = [.set ⟨hash, v, now, now + n * 1000⟩] ∧
    (0 < n → now < now + n * 1000) := by
  constructor
  · simp only [responseInterceptor, hready, hres, hex]
    simp [truthy, hn, hgate, hok, hbody, hv, hhash, expiresAtOf]
    cases beh.setResult ⟨hash, v, now, now + n * 1000⟩ <;> simp
  · intro hpos
    omega

/-- A request with a positive request-level TTL of 60 seconds. -/
def cfgPos : RequestConfig := ⟨.prim (.num 60), none, ["json"], []⟩

/-- Witness for C4's amended theorem: a TTL of 60 written at `now = 1000`
yields `expiresAt = 61000 > 1000`. -/
theorem C4_witness :
    (responseInterceptor stReady behOk rtAll cfgPos (some respJson42) ghOk 1000).1.storeOps
      = [.set ⟨"h", .num 42, 1000, 61000⟩] ∧ (1000 : Int) < 61000 := by
  have h := C4_theorem stReady behOk rtAll cfgPos respJson42 respJson42 ghOk 1000 60 false
    (.num 42) true "h" rfl rfl (by norm_num) rfl rfl rfl rfl (by simp) rfl
  exact ⟨h.1.trans (by norm_num), h.2 (by norm_num)⟩

/-- C5: `resolveCacheMetaConfig` returns the disabled default for an absent
`meta.cache`; raises the configuration error for any value that neither is a
number nor an object carrying a numeric `ttlSeconds` or boolean `hashBody` —
and does so before any store access, as the request interceptor on such a
request fails with the configuration error having issued no store operation;
and otherwise normalizes, defaulting a missing `ttlSeconds` to 0 and a
missing `hashBody` to false. -/
theorem C5_theorem (n t : Int) (b : Bool) (c : CacheConfigVal)
    (hbad : configDoesntConform c = true) :
    resolveCacheMetaConfig (.prim .undefined) = .ok ⟨.num 0, false⟩ ∧
    resolveCacheMetaConfig c = .error () ∧
    (∀ (st : AdapterState) (beh : StoreBehavior) (gh : Bool → Except Unit String) (now : Int)
       (api : Option ApiInfo) (jm tm : List String),
       st.readyPromise = none →
       (requestInterceptor st beh ⟨c, api, jm, tm⟩ gh now).result = .error .invalidCacheConfig ∧
       (requestInterceptor st beh ⟨c, api, jm, tm⟩ gh now).storeOps = []) ∧
    resolveCacheMetaConfig (.prim (.num n)) = .ok ⟨.num n, false⟩ ∧
    resolveCacheMetaConfig (.obj (.num t) (.boolV b)) = .ok ⟨.num t, b⟩ ∧
    resolveCacheMetaConfig (.obj (.num t) .undefined) = .ok ⟨.num t, false⟩ ∧
    resolveCacheMetaConfig (.obj .undefined (.boolV b)) = .ok ⟨.num 0, b⟩ := by
  have hne : c ≠ .prim .undefined := by
    rintro rfl
    simp [configDoesntConform] at hbad
  have herr : resolveCacheMetaConfig c = .error () := by
    simp [resolveCacheMetaConfig, hne, hbad]
  refine ⟨rfl, herr, ?_, ?_, ?_, ?_, ?_⟩
  · intro st beh gh now api jm tm hready
    constructor <;> simp [requestInterceptor, hready, herr]
  · simp [resolveCacheMetaConfig, configDoesntConform, typeofIsNumber]
  · by_cases ht : t = 0 <;>
      simp [resolveCacheMetaConfig, configDoesntConform, typeofIsNumber, jsOr, truthy, ht]
  · by_cases ht : t = 0 <;>
      simp [resolveCacheMetaConfig, configDoesntConform, typeofIsNumber, jsOr, truthy, ht]
  · simp [resolveCacheMetaConfig, configDoesntConform, typeofIsNumber, jsOr, truthy]

/-- Witness for C5 at the malformed value `meta.cache = "abc"`: the request
interceptor surfaces the configuration error without touching the store. -/
theorem C5_witness :
    resolveCacheMetaConfig (.prim (.strV "abc")) = .error () ∧
    (requestInterceptor stReady behOk ⟨.prim (.strV "abc"), none, [], []⟩ ghOk 0).result
      = .error .invalidCacheConfig ∧
    (requestInterceptor stReady behOk ⟨.prim (.strV "abc"), none, [], []⟩ ghOk 0).storeOps
      = [] := by
  have h := C5_theorem 5 7 true (.prim (.strV "abc")) rfl
  exact ⟨h.2.1, (h.2.2.1 stReady behOk ghOk 0 none [] [] rfl).1,
    (h.2.2.1 stReady behOk ghOk 0 none [] [] rfl).2⟩

/-- C6: with a nonzero TTL, a passed gate and an available fingerprint, the
request interceptor short-circuits with the stored body exactly when the store
lookup finds an entry with `expiresAt > now`; an expired entry, an absent
entry, or a failed lookup all make it return nothing so the request executes,
and only the failed lookup is logged. -/
theorem C6_theorem (st : AdapterState) (beh : StoreBehavior) (config : RequestConfig)
    (gh : Bool → Except Unit String) (now : Int) (rc : ResolvedCacheMeta)
    (ex : Bool) (hash : String)
    (hready : st.readyPromise = none)
    (hres : resolveCacheMetaConfig config.metaCache = .ok rc)
    (httl : truthy rc.ttlSeconds = true)
    (hex : isExplicitCache config = .ok ex)
    (hgate : (!ex && filterRejects st.filter config) = false)
    (hhash : gh rc.hashBody = .ok hash) :
    (∀ entry : CacheEntry, beh.getResult hash = .ok (some entry) →
       ((now < entry.expiresAt →
           (requestInterceptor st beh config gh now).result = .ok (some entry.body)) ∧
        (¬ now < entry.expiresAt →
           (requestInterceptor st beh config gh now).result = .ok none))) ∧
    (beh.getResult hash = .ok none →
       (requestInterceptor st beh config gh now).result = .ok none) ∧
    (∀ msg : String, beh.getResult hash = .error msg →
       (requestInterceptor st beh config gh now).result = .ok none ∧
       (requestInterceptor st beh config gh now).logs = ["Failed to read cache entry"]) := by
  refine ⟨?_, ?_, ?_⟩
  · intro entry hget
    constructor <;> intro hlt <;>
      simp [requestInterceptor, hready, hres, httl, hex, hgate, hhash, hget, hlt]
  · intro hget
    simp [requestInterceptor, hready, hres, httl, hex, hgate, hhash, hget]
  · intro msg hget
    constructor <;> simp [requestInterceptor, hready, hres, httl, hex, hgate, hhash, hget]

/-- A live entry for the fingerprint "h", expiring at 5000. -/
def entryLive : CacheEntry := ⟨"h", .num 7, 0, 5000⟩

/-- A store holding `entryLive` under every fingerprint. -/
def behHit : StoreBehavior := ⟨fun _ => .ok (some entryLive), fun _ => .ok ()⟩

/-- Witness for C6: at `now = 1000 < 5000` the interceptor short-circuits
with the stored body. -/
theorem C6_witness :
    (requestInterceptor stReady behHit cfgPlain ghOk 1000).result = .ok (some (.num 7)) := by
  have h := C6_theorem stReady behHit cfgPlain ghOk 1000 ⟨.num 60, false⟩ true "h"
    rfl rfl rfl rfl rfl rfl
  simpa [entryLive] using (h.1 entryLive rfl).1 (by norm_num [entryLive])

/-- Body extraction hands the pipeline back exactly the response object it was
given: all reads happen on `response.clone()`. -/
theorem readResponseSafely_snd (rt : String → String → Bool) (config : RequestConfig)
    (r : JSResponse) : (readResponseSafely rt config r).2 = r := by
  unfold readResponseSafely
  by_cases hj : isJSONResponse rt config (contentTypeOf r) = true <;>
    by_cases ht : isTextResponse rt config (contentTypeOf r) = true <;>
      cases hjs : (readJson (cloneResponse r)).1 <;>
        cases hts : (readText (cloneResponse r)).1 <;>
          simp [hj, ht, hjs, hts]

/-- C7: the response interceptor issues a store write only for `ok` responses;
the stored body is the JSON parse when the content type matches a JSON mime
pattern, otherwise the response text when it matches a text pattern; any other
content type produces no write and no error; and the response object passed
downstream is the original, its body unconsumed, because extraction reads only
clones. -/
theorem C7_theorem (st : AdapterState) (beh : StoreBehavior) (rt : String → String → Bool)
    (config : RequestConfig) (r : JSResponse) (gh : Bool → Except Unit String) (now : Int)
    (rc : ResolvedCacheMeta) (ex : Bool)
    (hready : st.readyPromise = none)
    (hres : resolveCacheMetaConfig config.metaCache = .ok rc)
    (httl : truthy rc.ttlSeconds = true)
    (hex : isExplicitCache config = .ok ex)
    (hgate : (!ex && filterRejects st.filter config) = false) :
    (r.ok = false →
       (responseInterceptor st beh rt config (some r) gh now).1.storeOps = [] ∧
       (responseInterceptor st beh rt config (some r) gh now).1.result = .ok ()) ∧
    ((responseInterceptor st beh rt config none gh now).1.storeOps = []) ∧
    (∀ (v : JSVal) (hash : String),
       r.ok = true →
       isJSONResponse rt config (contentTypeOf r) = true →
       r.jsonBody = .ok v → v ≠ JSVal.null →
       gh rc.hashBody = .ok hash →
       (responseInterceptor st beh rt config (some r) gh now).1.storeOps
         = [.set ⟨hash, v, now, expiresAtOf rc.ttlSeconds now⟩]) ∧
    (∀ (s hash : String),
       r.ok = true →
       isJSONResponse rt config (contentTypeOf r) = false →
       isTextResponse rt config (contentTypeOf r) = true →
       r.textBody = .ok s →
       gh rc.hashBody = .ok hash →
       (responseInterceptor st beh rt config (some r) gh now).1.storeOps
         = [.set ⟨hash, .strV s, now, expiresAtOf rc.ttlSeconds now⟩]) ∧
    (r.ok = true →
       isJSONResponse rt config (contentTypeOf r) = false →
       isTextResponse rt config (contentTypeOf r) = false →
       (responseInterceptor st beh rt config (some r) gh now).1.storeOps = [] ∧
       (responseInterceptor st beh rt config (some r) gh now).1.result = .ok ()) ∧
    ((responseInterceptor st beh rt config (some r) gh now).2 = some r) := by
  refine ⟨?_, ?_, ?_, ?_, ?_, ?_⟩
  · intro hok
    constructor <;> simp [responseInterceptor, hready, hres, httl, hex, hgate, hok]
  · simp [responseInterceptor, hready, hres, httl, hex, hgate]
  · intro v hash hok hjson hparse hv hhash
    have hbody : readResponseSafely rt config r = (v, r) := by
      simp [readResponseSafely, hjson, readJson, cloneResponse, hparse]
    simp only [responseInterceptor, hready, hres, httl, hex, hgate]
    simp [hok, hbody, hv, hhash]
    cases beh.setResult ⟨hash, v, now, expiresAtOf rc.ttlSeconds now⟩ <;> simp
  · intro s hash hok hjson htext hread hhash
    have hbody : readResponseSafely rt config r = (.strV s, r) := by
      simp [readResponseSafely, hjson, htext, readText, cloneResponse, hread]
    simp only [responseInterceptor, hready, hres, httl, hex, hgate]
    simp [hok, hbody, hhash]
    cases beh.setResult ⟨hash, .strV s, now, expiresAtOf rc.ttlSeconds now⟩ <;> simp
  · intro hok hjson htext
    have hbody : readResponseSafely rt config r = (.null, r) := by
      simp [readResponseSafely, hjson, htext]
    constructor <;> simp [responseInterceptor, hready, hres, httl, hex, hgate, hok, hbody]
  · have h2 := readResponseSafely_snd rt config r
    simp only [responseInterceptor, hready, hres, httl, hex, hgate]
    by_cases hok : r.ok = true
    · rcases hrs : readResponseSafely rt config r with ⟨body, r2⟩
      have hr2 : r2 = r := by rw [hrs] at h2; exact h2
      subst hr2
      by_cases hb : body = JSVal.null
      · simp [hok, hrs, hb]
      · cases hg : gh rc.hashBody with
        | error e => simp [hok, hrs, hb, hg]
        | ok hash =>
          cases hset : beh.setResult ⟨hash, body, now, expiresAtOf rc.ttlSeconds now⟩ <;>
            simp [hok, hrs, hb, hg, hset]
    · simp [hok]

/-- Witness for C7 on the JSON path: the parse result is stored and the
response object passes through unchanged. -/
theorem C7_witness :
    (responseInterceptor stReady behOk rtJson cfgJson (some respJson42) ghOk 0).1.storeOps
      = [.set ⟨"h", .num 42, 0, 60000⟩] ∧
    (responseInterceptor stReady behOk rtJson cfgJson (some respJson42) ghOk 0).2
      = some respJson42 := by
  have h := C7_theorem stReady behOk rtJson cfgJson respJson42 ghOk 0 ⟨.num 60, false⟩ true
    rfl rfl rfl rfl rfl
  refine ⟨?_, h.2.2.2.2.2⟩
  have h3 := h.2.2.1 (.num 42) "h" rfl rfl rfl (by simp) rfl
  exact h3.trans (by norm_num [expiresAtOf])

/-- Opening on a store that already holds a promise returns that promise and
starts nothing new, for the whole remaining call sequence. -/
theorem runOpens_cached (rest : List Nat) (s : IDBStoreState) (p : Nat)
    (h : s.dbPromise = some p) : runOpens rest s = rest.map (fun _ => (p, false)) := by
  induction rest generalizing s with
  | nil => simp [runOpens]
  | cons f tl ih =>
    simp only [runOpens, openOk, h, List.map]
    exact congrArg _ (ih s h)

/-- C9: the database open is lazy and single-flight.  The constructed store
holds no promise; in any sequence of store operations the first one creates
the open promise, and every later operation awaits that same promise without
starting a second open of the namespace. -/
theorem C9_theorem :
    mkIDBStore.dbPromise = none ∧
    (∀ (f : Nat) (rest : List Nat),
       runOpens (f :: rest) mkIDBStore = (f, true) :: rest.map (fun _ => (f, false))) := by
  refine ⟨rfl, ?_⟩
  intro f rest
  simp only [runOpens, mkIDBStore, openOk]
  exact congrArg _ (runOpens_cached rest ⟨some f⟩ f rfl)

/-- C10: omitting the options argument entirely selects the default cache
name `apihive-request-cache`, but passing an options object that does not set
`cacheName` — for instance one carrying only a filter — makes the constructor
throw synchronously, because the default applies only to the whole missing
argument. -/
theorem C10_theorem :
    mkSimpleRequestCacheAdapter none = .ok ⟨"apihive-request-cache", none, false⟩ ∧
    (∀ (f : Option (RequestConfig → Bool)) (c : Option Bool),
       mkSimpleRequestCacheAdapter (some ⟨none, f, c⟩) = .error ()) :=
  ⟨rfl, fun _ _ => rfl⟩

end SimpleCache
